import Mathlib

/-!
Verification of the python-nuclos client library (src/nuclos.py) against its
natural-language specification.  The Python source is shallowly embedded:
Python runtime values become the inductive type `PyVal`, raised exceptions
become the error type `Err` threaded through `Except`, and the stateful
session/caching machinery becomes explicit state passing.
-/

namespace Nuclos

/-- Python runtime values as they occur in this library: JSON scalars and
containers, plus `instObj`, an opaque stand-in for a `BusinessObjectInstance`
object passed as an attribute value (carrying the entity id of its
`_business_object`, its `id` and its `title` as already-computed values).
Dictionaries are association lists with string keys, as produced by
`json.loads` in this code base. -/
inductive PyVal where
  | none
  | bool (b : Bool)
  | int (n : Int)
  | str (s : String)
  | list (xs : List PyVal)
  | dict (kvs : List (String × PyVal))
  | instObj (boMetaId : String) (boId : PyVal) (title : PyVal)

/-- Exceptions raised by the library (`NuclosVersionException`,
`NuclosAuthenticationException`, `NuclosHTTPException`,
`NuclosValueException`, the base `NuclosException` used for lifecycle
violations) together with the Python built-in exceptions the code can hit
(`AttributeError`, `TypeError`, `KeyError`, `ValueError`). -/
inductive Err where
  | version
  | auth
  | http (code : Nat) (reason : String)
  | valueEx
  | invalidState (msg : String)
  | attributeError
  | typeError
  | keyError
  | valueError
  | ioError
deriving DecidableEq

mutual

/-- Python `==` on `PyVal`, structural on containers. -/
def pyEqB : PyVal → PyVal → Bool
  | .none, .none => true
  | .bool a, .bool b => a == b
  | .int a, .int b => a == b
  | .str a, .str b => a == b
  | .list xs, .list ys => pyEqBList xs ys
  | .dict xs, .dict ys => pyEqBKVs xs ys
  | .instObj a i t, .instObj a2 i2 t2 => a == a2 && pyEqB i i2 && pyEqB t t2
  | _, _ => false

/-- Elementwise `==` on Python lists / tuples. -/
def pyEqBList : List PyVal → List PyVal → Bool
  | [], [] => true
  | x :: xs, y :: ys => pyEqB x y && pyEqBList xs ys
  | _, _ => false

/-- Entrywise `==` on dict association lists. -/
def pyEqBKVs : List (String × PyVal) → List (String × PyVal) → Bool
  | [], [] => true
  | (k, v) :: xs, (k2, v2) :: ys => k == k2 && pyEqB v v2 && pyEqBKVs xs ys
  | _, _ => false

end

/-- Python truthiness (`bool(v)`) for the values of `PyVal`. -/
def pyTruthy : PyVal → Bool
  | .none => false
  | .bool b => b
  | .int n => n != 0
  | .str s => s ≠ ""
  | .list xs => !xs.isEmpty
  | .dict kvs => !kvs.isEmpty
  | .instObj _ _ _ => true

/-- Truthiness of `self.session_id`, a `None`-or-value field. -/
def optTruthy : Option PyVal → Bool
  | Option.none => false
  | Option.some v => pyTruthy v

/-- The `hash(v)` attempt on a single value: lists and dicts are unhashable
in Python, everything else this library stores is hashable. -/
def pyHashable : PyVal → Bool
  | .list _ => false
  | .dict _ => false
  | _ => true

/-- Python `str(v)` for the scalar values this library stringifies
(`set_attribute`, line 1154).  Container and object reprs are never needed
by a theorem below and are modelled by fixed tags. -/
def pyStr : PyVal → String
  | .none => "None"
  | .bool true => "True"
  | .bool false => "False"
  | .int n => toString n
  | .str s => s
  | .list _ => "[...]"
  | .dict _ => "dict-repr"
  | .instObj _ _ _ => "<BusinessObjectInstance>"

/-- Python `d[k]` on a dict with string keys: `KeyError` when absent,
`TypeError` when the value is not a dict at all. -/
def pyDictGet (v : PyVal) (k : String) : Except Err PyVal :=
  match v with
  | .dict kvs =>
    match kvs.find? (fun p => p.1 == k) with
    | Option.some p => .ok p.2
    | Option.none => .error .keyError
  | _ => .error .typeError

/-- Python `k in d` membership on a dict; `TypeError` on a non-dict. -/
def pyDictHasKey (v : PyVal) (k : String) : Except Err Bool :=
  match v with
  | .dict kvs => .ok (kvs.any (fun p => p.1 == k))
  | _ => .error .typeError

/-! ## The `Cached` memoization decorator (nuclos.py lines 86-111) -/

/-- One cache dictionary of a `Cached` object: keys are the call argument
tuples, values the memoized results. -/
abbrev Cache := List (List PyVal × PyVal)

/-- The guard `isinstance(args, collections.Hashable)` of
`Cached.__call__` (line 103).  `args` is always a tuple, and the tuple
class defines `__hash__`, so the `isinstance` check is true no matter what
the tuple contains. -/
def tupleIsHashableInstance (_args : List PyVal) : Bool := true

/-- The membership test `args not in self.cache` (line 105) hashes the
argument tuple; hashing a tuple hashes its elements, so an unhashable
element raises `TypeError`. -/
def cacheHasKey (cache : Cache) (args : List PyVal) : Except Err Bool :=
  if args.all pyHashable then
    .ok (cache.any (fun e => pyEqBList e.1 args))
  else
    .error .typeError

/-- Lookup `self.cache[args]`. -/
def cacheLookup (cache : Cache) (args : List PyVal) : Option PyVal :=
  (cache.find? (fun e => pyEqBList e.1 args)).map (fun e => e.2)

/-- `Cached.__call__` (lines 102-108): guard, membership test, compute and
store on a miss, return the stored entry.  Returns the result and the
updated cache. -/
def cachedCall (f : List PyVal → PyVal) (cache : Cache) (args : List PyVal) :
    Except Err (PyVal × Cache) :=
  if !(tupleIsHashableInstance args) then
    .ok (f args, cache)
  else
    match cacheHasKey cache args with
    | .error e => .error e
    | .ok mem =>
      let cache' := if mem then cache else cache ++ [(args, f args)]
      .ok ((cacheLookup cache' args).getD (f args), cache')

/-! ## Python string primitives used by the name-resolution code

The source calls `str.lower()`, `str.replace("_", " ")`, `"_" in s`,
`str.capitalize()` and `str.startswith`.  They are modelled charwise on
`String.data`; lowering/uppering is the ASCII model (`Char.toLower` /
`Char.toUpper`), which covers every identifier this library handles. -/

/-- Python `s.lower()` (ASCII model, charwise). -/
def strLower (s : String) : String := String.mk (s.data.map Char.toLower)

/-- Python `s.replace("_", " ")`: the pattern is a single character, so the
replacement is a charwise map. -/
def substUS (s : String) : String :=
  String.mk (s.data.map (fun c => if c = '_' then ' ' else c))

/-- Python `"_" in s`. -/
def hasUnderscore (s : String) : Bool := s.data.contains '_'

/-- Number of underscores in a string; the termination bound of the
recursive underscore-to-space fallback. -/
def uCount (s : String) : Nat := s.data.count '_'

/-- Python `s.capitalize()`: first character upper-cased, the rest
lower-cased (ASCII model). -/
def pyCapitalize (s : String) : String :=
  match s.data with
  | [] => ""
  | c :: cs => String.mk (Char.toUpper c :: cs.map Char.toLower)

theorem charToNat_ofNat_of_valid (n : Nat) (h : n < 55296) :
    (Char.ofNat n).toNat = n := by
  rw [Char.ofNat, dif_pos (Or.inl h)]
  simp only [Char.ofNatAux, Char.toNat, UInt32.ofNat']
  simp [UInt32.toNat]

theorem charLower_idem (c : Char) : c.toLower.toLower = c.toLower := by
  simp only [Char.toLower]
  split
  · next h =>
    have h2 : (Char.ofNat (c.toNat + 32)).toNat = c.toNat + 32 := by
      apply charToNat_ofNat_of_valid; omega
    rw [if_neg (by omega)]
  · rfl

theorem charLower_eq_underscore (c : Char) (h : c.toLower = '_') : c = '_' := by
  revert h
  simp only [Char.toLower]
  split
  · next hr =>
    intro h
    have h2 : (Char.ofNat (c.toNat + 32)).toNat = c.toNat + 32 := by
      apply charToNat_ofNat_of_valid; omega
    rw [h] at h2
    have h3 : ('_' : Char).toNat = 95 := by decide
    omega
  · intro h; exact h

theorem strLower_idem (s : String) : strLower (strLower s) = strLower s := by
  simp only [strLower, List.map_map]
  have h : Char.toLower ∘ Char.toLower = Char.toLower := funext charLower_idem
  rw [h]

theorem hasUnderscore_lower_subst (s : String) :
    hasUnderscore (strLower (substUS s)) = false := by
  simp only [hasUnderscore, strLower, substUS, List.map_map]
  rw [List.contains_eq_any_beq]
  simp only [List.any_map, List.any_eq_false, Function.comp]
  intro c _
  simp only [beq_iff_eq]
  intro hc
  have hc2 := charLower_eq_underscore _ hc.symm
  by_cases hc3 : c = '_'
  · rw [if_pos hc3] at hc2
    exact absurd hc2 (by decide)
  · rw [if_neg hc3] at hc2
    exact hc3 hc2

/-! ## Entity and attribute name resolution (`NuclosAPI._get_bo_meta_id`,
`BusinessObjectMeta.get_attribute_by_name`, nuclos.py lines 223-241 and
473-489)

The catalog is the decoded `bometalist` response: a list of
`(name, boMetaId)` pairs.  A `None`/empty response (the `if
self._business_objects:` truthiness guard) is the empty list.  The
recursion `name.replace("_", " ")` removes every underscore at once, so one
recursive call suffices; the fuel parameter makes that bound explicit (the
spec itself mandates a termination bound of the number of underscores).
The `Cached` wrappers on these lookups are value-transparent and elided. -/

/-- The direct search loop of `_get_bo_meta_id`: first catalog entry whose
lower-cased name equals the (already lower-cased) query. -/
def findBoByName (catalog : List (String × String)) (n : String) : Option String :=
  (catalog.find? (fun bo => strLower bo.1 == n)).map (fun bo => bo.2)

/-- `NuclosAPI._get_bo_meta_id` with an explicit recursion bound. -/
def getBoMetaIdAux (catalog : List (String × String)) (fuel : Nat) (name : String) :
    Option String :=
  let n := strLower name
  match findBoByName catalog n with
  | Option.some id => Option.some id
  | Option.none =>
    if hasUnderscore n then
      match fuel with
      | 0 => Option.none
      | fuel + 1 => getBoMetaIdAux catalog fuel (substUS n)
    else Option.none

/-- `NuclosAPI._get_bo_meta_id`: one substitution step is the exact
semantics, because the substitution removes every underscore. -/
def getBoMetaId (catalog : List (String × String)) (name : String) : Option String :=
  getBoMetaIdAux catalog 1 name

/-- Closed-form characterization of `_get_bo_meta_id`: a case-insensitive
direct match, then — only if the query contains underscores — a
case-insensitive match with every underscore replaced by a space. -/
theorem getBoMetaId_eq (catalog : List (String × String)) (name : String) :
    getBoMetaId catalog name =
      match findBoByName catalog (strLower name) with
      | Option.some id => Option.some id
      | Option.none =>
        if hasUnderscore (strLower name) then
          findBoByName catalog (strLower (substUS (strLower name)))
        else Option.none := by
  cases h : findBoByName catalog (strLower name) with
  | some id => simp [getBoMetaId, getBoMetaIdAux, h]
  | none =>
    cases h2 : hasUnderscore (strLower name) with
    | false => simp [getBoMetaId, getBoMetaIdAux, h, h2]
    | true =>
      cases h3 : findBoByName catalog (strLower (substUS (strLower name))) with
      | some id => simp [getBoMetaId, getBoMetaIdAux, h, h2, h3]
      | none =>
        simp [getBoMetaId, getBoMetaIdAux, h, h2, h3, hasUnderscore_lower_subst]

/-- `BusinessObjectMeta.get_attribute_by_name`, same lookup rule applied to
the entity's attribute list; attributes carry their metadata record (see
`AttrMeta` below); here only the display name matters. -/
structure AttrMeta where
  boAttrId : String
  name : String
  type : String
  readonly : Bool
  nullable : Bool
  uniqueFlag : Bool
  reference : Bool
  referencingBoMetaId : String
deriving DecidableEq

/-- The direct search loop of `get_attribute_by_name`. -/
def findAttrByName (attrs : List AttrMeta) (n : String) : Option AttrMeta :=
  attrs.find? (fun a => strLower a.name == n)

/-- `BusinessObjectMeta.get_attribute_by_name` with the explicit recursion
bound (lines 473-489). -/
def getAttributeByNameAux (attrs : List AttrMeta) (fuel : Nat) (name : String) :
    Option AttrMeta :=
  let n := strLower name
  match findAttrByName attrs n with
  | Option.some a => Option.some a
  | Option.none =>
    if hasUnderscore n then
      match fuel with
      | 0 => Option.none
      | fuel + 1 => getAttributeByNameAux attrs fuel (substUS n)
    else Option.none

/-- `BusinessObjectMeta.get_attribute_by_name`. -/
def getAttributeByName (attrs : List AttrMeta) (name : String) : Option AttrMeta :=
  getAttributeByNameAux attrs 1 name

/-- Member access `BusinessObjectMeta.__getattr__` / `__getitem__` (lines
491-503): an unresolvable attribute name raises `AttributeError`. -/
def metaMemberByName (attrs : List AttrMeta) (name : String) : Except Err AttrMeta :=
  match getAttributeByName attrs name with
  | Option.some a => .ok a
  | Option.none => .error .attributeError

/-! ## Business object lookup with namespace fallback
(`NuclosAPI.get_business_object_by_name`, lines 281-300) -/

/-- `NuclosAPI._bo_meta_id_exists` (lines 243-255). -/
def boMetaIdExists (catalog : List (String × String)) (boMetaId : String) : Bool :=
  catalog.any (fun bo => bo.2 == boMetaId)

/-- The namespace fallback loop of `get_business_object_by_name` (lines
294-298).  Crucial detail kept from the source: the inner
`for name in [name, name.capitalize()]` rebinds `name`, so after a
namespace fails the loop variable holds `name.capitalize()` and the next
namespace builds its candidates from that value. -/
def nsLoop (catalog : List (String × String)) :
    List String → String → Option String
  | [], _ => Option.none
  | ns :: rest, name =>
    if boMetaIdExists catalog (ns ++ "_" ++ name) then
      Option.some (ns ++ "_" ++ name)
    else if boMetaIdExists catalog (ns ++ "_" ++ pyCapitalize name) then
      Option.some (ns ++ "_" ++ pyCapitalize name)
    else nsLoop catalog rest (pyCapitalize name)

/-- `NuclosAPI.get_business_object_by_name`, returning the meta id of the
`BusinessObject` it would construct (`None` becomes `none`).  A truthy
primary result short-circuits; `get_business_object` re-checks existence
(always true for catalog-derived ids, modelled faithfully anyway). -/
def getBusinessObjectByName (catalog : List (String × String))
    (namespaces : List String) (name : String) : Option String :=
  match getBoMetaId catalog name with
  | Option.some id =>
    if id ≠ "" then
      (if boMetaIdExists catalog id then Option.some id else Option.none)
    else nsLoop catalog namespaces name
  | Option.none => nsLoop catalog namespaces name

/-! ## Version check (`NuclosAPI.require_version`, nuclos.py lines 152-165,
and the version gate of `login`, lines 174-175) -/

/-- Python `s.split(sep)` for a single-character separator, charwise. -/
def splitOnChar (sep : Char) : List Char → List (List Char)
  | [] => [[]]
  | c :: cs =>
    match splitOnChar sep cs with
    | [] => [[]]
    | h :: t => if c = sep then [] :: h :: t else (c :: h) :: t

/-- Python `s.split(sep)` on strings. -/
def pySplit (s : String) (sep : Char) : List String :=
  (splitOnChar sep s.data).map String.mk

/-- Python `int(x)` restricted to the decimal digit strings version
components are made of; anything else raises `ValueError` (`none`). -/
def pyIntParse (s : String) : Option Nat :=
  if s.data ≠ [] ∧ s.data.all Char.isDigit then
    Option.some (s.data.foldl (fun acc c => 10 * acc + (c.toNat - 48)) 0)
  else Option.none

/-- The parsing in `require_version`:
`version_string = self.version.split(" ")[0]` and
`version_parts = [int(x) for x in version_string.split(".")]`; a
non-numeric component raises `ValueError` (modelled as `none`). -/
def versionParts (answer : String) : Option (List Nat) :=
  (pySplit ((pySplit answer ' ').headD "") '.').mapM pyIntParse

/-- `NuclosAPI.require_version`: componentwise comparison of the zipped
part/requirement pairs — `for v, req in zip(version_parts, version): if
v < req: return False` — then `True`. -/
def requireVersion (answer : String) (required : List Nat) : Except Err Bool :=
  match versionParts answer with
  | Option.none => .error .valueError
  | Option.some parts =>
    .ok ((parts.zip required).all (fun p => !decide (p.1 < p.2)))

/-- `require_version` applied to the memoized `version` property value: the
`.split` call needs a string. -/
def requireVersionPy (v : PyVal) (required : List Nat) : Except Err Bool :=
  match v with
  | .str s => requireVersion s required
  | _ => .error .attributeError

/-- Modelled from the spec: "the version check accepts it if and only if it
denotes a version greater than or equal to the minimum (4.7)" — ordinary
lexicographic comparison of dotted version numbers, absent components
reading as zero. -/
def specVersionAtLeast : List Nat → List Nat → Bool
  | _, [] => true
  | [], r :: rs => r == 0 && specVersionAtLeast [] rs
  | v :: vs, r :: rs => decide (r < v) || (v == r && specVersionAtLeast vs rs)

/-! ## Claim theorems for C2, C3, C5, C6 -/

/-- C2 (code bug): `require_version` compares version components pairwise
under `zip` instead of lexicographically, so a server reporting version
"5.0" is rejected against the required minimum 4.7 (the second component 0
is below 7), although 5.0 denotes a version greater than 4.7 — `login`
would raise `NuclosVersionException` on any 5.0-5.6 server, contradicting
the spec sentence (any 5.x accepted) and the function's own docstring
("True if the server version is high enough"). -/
theorem C2_code_bug :
    versionParts "5.0" = Option.some [5, 0] ∧
    requireVersion "5.0" [4, 7] = .ok false ∧
    specVersionAtLeast [5, 0] [4, 7] = true :=
  ⟨rfl, rfl, rfl⟩

/-- C3 (code bug): in `Cached.__call__` the guard
`isinstance(args, collections.Hashable)` tests the argument *tuple*, which
always has `__hash__`, so the intended cache bypass for unhashable
arguments never fires; the following membership test `args not in
self.cache` then hashes the tuple and raises `TypeError` when an argument
is a list, instead of recomputing without raising.  For hashable
arguments the memoization itself works: a first call stores the result and
a later call returns the stored value (conjuncts two and three: the second
call returns the stored 7, not the recomputed 9). -/
theorem C3_code_bug :
    cachedCall (fun _ => PyVal.int 7) [] [PyVal.list []] = .error .typeError ∧
    cachedCall (fun _ => PyVal.int 7) [] [PyVal.int 1] =
      .ok (PyVal.int 7, [([PyVal.int 1], PyVal.int 7)]) ∧
    cachedCall (fun _ => PyVal.int 9) [([PyVal.int 1], PyVal.int 7)] [PyVal.int 1] =
      .ok (PyVal.int 7, [([PyVal.int 1], PyVal.int 7)]) :=
  ⟨rfl, rfl, rfl⟩

/-- C5 (counterexample): underscore/space substitution is not symmetric.
With an entity stored under the name "a_b", the query "a_b" resolves, but
the query "a b" — differing only by substituting a space for the
underscore — does not: the code only replaces underscores in the *query*
by spaces, never spaces by underscores. -/
theorem C5_counterexample :
    getBoMetaId [("a_b", "id1")] "a_b" = Option.some "id1" ∧
    getBoMetaId [("a_b", "id1")] "a b" = Option.none :=
  ⟨by decide, by decide⟩

/-- C5 (amended): name resolution lowercases the query and compares display
names case-insensitively, so queries differing only in case resolve
identically; if the direct search fails and the query contains
underscores, it retries exactly once with every underscore replaced by a
space (one direction only).  An unresolvable entity name yields `none`,
and unresolvable attribute member access raises `AttributeError`. -/
theorem C5_amended :
    (∀ catalog name,
       getBoMetaId catalog name = getBoMetaId catalog (strLower name)) ∧
    (∀ catalog name,
       getBoMetaId catalog name =
         match findBoByName catalog (strLower name) with
         | Option.some id => Option.some id
         | Option.none =>
           if hasUnderscore (strLower name) then
             findBoByName catalog (strLower (substUS (strLower name)))
           else Option.none) ∧
    (∀ attrs name, getAttributeByName attrs name = Option.none →
       metaMemberByName attrs name = Except.error Err.attributeError) := by
  refine ⟨?_, ?_, ?_⟩
  · intro catalog name
    rw [getBoMetaId_eq, getBoMetaId_eq, strLower_idem]
  · intro catalog name
    exact getBoMetaId_eq catalog name
  · intro attrs name h
    simp [metaMemberByName, h]

/-- Witness for `C5_amended` at concrete inputs: case-insensitive lookup of
"fOO_bar" against a catalog storing "Foo Bar", and a missing attribute
member raising `AttributeError`. -/
theorem C5_amended_witness :
    getBoMetaId [("Foo Bar", "idA")] "fOO_bar" =
      getBoMetaId [("Foo Bar", "idA")] (strLower "fOO_bar") ∧
    metaMemberByName [] "missing" = Except.error Err.attributeError :=
  ⟨C5_amended.1 [("Foo Bar", "idA")] "fOO_bar",
   C5_amended.2.2 [] "missing" (by decide)⟩

/-- C6 (counterexample): with namespaces ["a", "b"] registered and a
business object whose literal meta id is "b_x", the lookup of "x" fails
even though the claim requires the candidate `b_x` (second namespace +
original name) to be tried: after namespace "a" fails, the loop variable
`name` has been rebound to `"x".capitalize() = "X"`, so namespace "b" only
tries "b_X". -/
theorem C6_counterexample :
    getBusinessObjectByName [("irrelevant", "b_x")] ["a", "b"] "x" =
      Option.none ∧
    boMetaIdExists [("irrelevant", "b_x")] ("b" ++ "_" ++ "x") = true :=
  ⟨by decide, by decide⟩

/-- C6 (amended): after the primary search fails, namespaces are tried in
registration order with two candidates each, but the candidates are built
from the *current* loop variable: the first namespace tries
`{ns}_{name}` and then `{ns}_{name.capitalize()}` from the caller's
original name; when a namespace yields no hit the variable is left rebound
to the capitalized name, so every later namespace builds both of its
candidates from that capitalization instead of the original spelling. -/
theorem C6_amended :
    (∀ catalog rest ns name, getBoMetaId catalog name = Option.none →
       boMetaIdExists catalog (ns ++ "_" ++ name) = true →
       getBusinessObjectByName catalog (ns :: rest) name =
         Option.some (ns ++ "_" ++ name)) ∧
    (∀ catalog rest ns name, getBoMetaId catalog name = Option.none →
       boMetaIdExists catalog (ns ++ "_" ++ name) = false →
       boMetaIdExists catalog (ns ++ "_" ++ pyCapitalize name) = true →
       getBusinessObjectByName catalog (ns :: rest) name =
         Option.some (ns ++ "_" ++ pyCapitalize name)) ∧
    (∀ catalog rest ns name,
       boMetaIdExists catalog (ns ++ "_" ++ name) = false →
       boMetaIdExists catalog (ns ++ "_" ++ pyCapitalize name) = false →
       nsLoop catalog (ns :: rest) name = nsLoop catalog rest (pyCapitalize name)) := by
  refine ⟨?_, ?_, ?_⟩
  · intro catalog rest ns name h h2
    simp [getBusinessObjectByName, nsLoop, h, h2]
  · intro catalog rest ns name h h2 h3
    simp [getBusinessObjectByName, nsLoop, h, h2, h3]
  · intro catalog rest ns name h h2
    simp [nsLoop, h, h2]

/-- Witness for `C6_amended` at concrete inputs. -/
theorem C6_amended_witness :
    getBusinessObjectByName [("n", "a_x")] ["a"] "x" =
      Option.some ("a" ++ "_" ++ "x") ∧
    getBusinessObjectByName [("n", "a_X")] ["a"] "x" =
      Option.some ("a" ++ "_" ++ pyCapitalize "x") ∧
    nsLoop [] ["a", "b"] "x" = nsLoop [] ["b"] (pyCapitalize "x") :=
  ⟨C6_amended.1 [("n", "a_x")] [] "a" "x" (by decide) (by decide),
   C6_amended.2.1 [("n", "a_X")] [] "a" "x" (by decide) (by decide) (by decide),
   C6_amended.2.2 [] ["b"] "a" "x" (by decide) (by decide)⟩

/-! ## Paging in `BusinessObject.list` (nuclos.py lines 582-635)

The transport is the per-entity instance-collection endpoint; instances are
identified by their `boId` (a `Nat` here).  `serverPage` is the server side
of the interface. -/

/-- Modelled from the spec: "List responses include a page of entries plus
a flag indicating whether this is the final page".  The server returns the
slice of the full instance list selected by the `offset`/`chunksize` query
parameters (`data["bos"]`), plus the final-page flag (`data["all"]`); with
no `chunksize` parameter it returns everything. -/
def serverPage (full : List Nat) (off : Nat) (chunk : Option Nat) :
    List Nat × Bool :=
  match chunk with
  | Option.none => (full.drop off, true)
  | Option.some c => ((full.drop off).take c, decide (full.length ≤ off + c))

/-- The `while True` paging loop of `BusinessObject.list` (lines 625-633):
request a page, append it, stop when `data["all"]` is set, otherwise
re-issue with `current_offset += limit + 1`.  The loop advances the offset
by at least one per iteration and stops once the final-page flag is set
(which happens at the latest when the offset passes the end of the list),
so `full.length + 1` steps of fuel are always sufficient. -/
def boListFetchAllAux (full : List Nat) (limit : Nat) :
    Nat → Nat → List Nat
  | 0, off => (serverPage full off (Option.some limit)).1
  | fuel + 1, off =>
    let page := serverPage full off (Option.some limit)
    if page.2 then page.1
    else page.1 ++ boListFetchAllAux full limit fuel (off + limit + 1)

/-- `BusinessObject.list` restricted to the paging-relevant arguments
(`offset`, `limit`, `fetch_all`; search/sort/filter only add opaque query
parameters).  With `fetch_all` the chunk size is raised to at least 100 and
the paging loop runs; otherwise a single request is made, with a
`chunksize` parameter only when `limit` is nonzero. -/
def boList (full : List Nat) (offset limit : Nat) (fetchAll : Bool) :
    List Nat :=
  if fetchAll then
    boListFetchAllAux full (max limit 100) (full.length + 1) offset
  else
    (serverPage full offset (if limit ≠ 0 then Option.some limit else Option.none)).1

/-- C8 (code bug): fetching all instances of an entity that has 101
instances (chunk size 100) returns only the first 100: the loop advances
the offset by `limit + 1` instead of `limit`, so the instance at index 100
is skipped — `list(fetch_all=True)` does not return "a list of all
instances" as its own documentation and the spec state. -/
theorem C8_code_bug :
    boList (List.range 101) 0 0 true = List.range 100 ∧
    List.range 100 ≠ List.range 101 :=
  ⟨rfl, by decide⟩

/-! ## Business object instances: `get_attribute` / `set_attribute`
(nuclos.py lines 701-736, 1027-1058, 1102-1157)

`BusinessObjectMeta` metadata is the parsed `boMetas` response: structure
fields stand for the `_data` dictionary entries of `AttributeMeta`.  The
catalog parameter serves `get_business_object`'s existence check for
referenced entities; the files parameter is the file system consulted by
the document branch of `set_attribute` (mapping a path to the
base64-encoded contents `open` + `b64encode` would produce). -/

/-- `BusinessObjectMeta`, reduced to the fields the instance code reads. -/
structure BOMeta where
  boMetaId : String
  attributes : List AttrMeta

/-- `BusinessObjectMeta.get_attribute` (lines 461-471): first attribute
with the requested id. -/
def findAttr (meta : BOMeta) (boAttrId : String) : Option AttrMeta :=
  meta.attributes.find? (fun a => a.boAttrId == boAttrId)

/-- Python `s.startswith(p)`, charwise. -/
def charsStart : List Char → List Char → Bool
  | [], _ => true
  | _ :: _, [] => false
  | p :: ps, c :: cs => p == c && charsStart ps cs

/-- `AttributeMeta.data_index` (lines 519-527): strip the owning entity's
meta id plus the separator character when it is a prefix of the attribute
id. -/
def dataIndex (meta : BOMeta) (attr : AttrMeta) : String :=
  if charsStart meta.boMetaId.data attr.boAttrId.data then
    String.mk (attr.boAttrId.data.drop (meta.boMetaId.data.length + 1))
  else attr.boAttrId

/-- `AttributeMeta.is_document` (lines 549-551). -/
def isDocument (a : AttrMeta) : Bool := strLower a.type == "document"

/-- Python `v is None`. -/
def pyIsNone : PyVal → Bool
  | .none => true
  | _ => false

/-- `NuclosAPI.get_business_object` (lines 257-268): the constructed
`BusinessObject` is represented by its meta id; `none` when the existence
check fails. -/
def getBusinessObject (catalog : List (String × String)) (boMetaId : String)
    (checkExistence : Bool) : Option String :=
  if !checkExistence || boMetaIdExists catalog boMetaId then Option.some boMetaId
  else Option.none

/-- `BusinessObjectInstance` state: `_bo_id`, `_data`, `_deleted`,
`_updated_attribute_data`. -/
structure BOInstance where
  boId : Option PyVal
  data : Option PyVal
  deleted : Bool
  updated : List (String × PyVal)

/-- Python dict assignment `m[k] = v` on the pending-write map. -/
def updInsert (m : List (String × PyVal)) (k : String) (v : PyVal) :
    List (String × PyVal) :=
  if m.any (fun p => p.1 == k) then
    m.map (fun p => if p.1 == k then (k, v) else p)
  else m ++ [(k, v)]

/-- Python dict lookup `m.get(k)`-style access on the pending-write map
(used here after a membership test, so absence never raises). -/
def updLookup (m : List (String × PyVal)) (k : String) : Option PyVal :=
  (m.find? (fun p => p.1 == k)).map (fun p => p.2)

/-- The `data` property (lines 728-736): uninitialized and deleted guards,
then the `if not self._data` truthiness check with a lazy fetch; the
payload a fetch would return is the `fetched` parameter. -/
def dataProp (fetched : PyVal) (inst : BOInstance) :
    Except Err (PyVal × BOInstance) :=
  if !optTruthy inst.boId then
    .error (.invalidState
      "Attempting to access data of an uninitialized business object instance.")
  else if inst.deleted then
    .error (.invalidState "Cannot access data of a deleted instance.")
  else
    match inst.data with
    | Option.some d =>
      if pyTruthy d then .ok (d, inst)
      else .ok (fetched, { inst with data := Option.some fetched })
    | Option.none => .ok (fetched, { inst with data := Option.some fetched })

/-- Result of `get_attribute`: either a plain value or the fresh
`BusinessObjectInstance` built for a reference attribute
(`attr.referenced_bo().get(data["id"])`), identified by the referenced
entity's meta id and the stored id. -/
inductive AttrValue where
  | val (v : PyVal)
  | ref (boMetaId : String) (boId : PyVal)

/-- The post-processing tail of `get_attribute` (lines 1052-1058):
documents resolve to the stored file name, references to a fresh instance
of the referenced entity (or `None` for a null id), everything else is
returned as stored. -/
def postProcess (catalog : List (String × String)) (attr : AttrMeta)
    (d : PyVal) (inst : BOInstance) : Except Err (AttrValue × BOInstance) :=
  if isDocument attr && !pyIsNone d then
    match pyDictGet d "name" with
    | .ok n => .ok (.val n, inst)
    | .error e => .error e
  else if attr.reference then
    if !pyIsNone d then
      match pyDictGet d "id" with
      | .error e => .error e
      | .ok idv =>
        if !pyIsNone idv then
          match getBusinessObject catalog attr.referencingBoMetaId true with
          | Option.some refId => .ok (.ref refId idv, inst)
          | Option.none => .error .attributeError
        else .ok (.val PyVal.none, inst)
    else .ok (.val PyVal.none, inst)
  else .ok (.val d, inst)

/-- `BusinessObjectInstance.get_attribute` (lines 1027-1058): resolve the
attribute, serve pending writes first, then the loaded data snapshot, with
a `False`/`None` default for attributes absent from the data. -/
def getAttribute (catalog : List (String × String)) (meta : BOMeta)
    (fetched : PyVal) (inst : BOInstance) (boAttrId : String) :
    Except Err (AttrValue × BOInstance) :=
  match findAttr meta boAttrId with
  | Option.none => .error .attributeError
  | Option.some attr =>
    let di := dataIndex meta attr
    match updLookup inst.updated di with
    | Option.some d => postProcess catalog attr d inst
    | Option.none =>
      match dataProp fetched inst with
      | .error e => .error e
      | .ok (dta, inst2) =>
        match pyDictGet dta "attributes" with
        | .error e => .error e
        | .ok attrsDict =>
          match pyDictHasKey attrsDict di with
          | .error e => .error e
          | .ok true =>
            match pyDictGet attrsDict di with
            | .error e => .error e
            | .ok d => postProcess catalog attr d inst2
          | .ok false =>
            if attr.type == "Boolean" then .ok (.val (.bool false), inst2)
            else .ok (.val PyVal.none, inst2)

/-- `os.path.basename` for the POSIX paths this library handles. -/
def basename (p : String) : String := (pySplit p '/').getLastD p

/-- `BusinessObjectInstance.set_attribute` (lines 1102-1157): writability
and nullability guards, then the document / reference / string-coercion
transformations, finally the write into the pending map under the
attribute's data index.  No network call occurs. -/
def setAttribute (catalog : List (String × String))
    (files : List (String × String)) (meta : BOMeta) (inst : BOInstance)
    (boAttrId : String) (value : PyVal) : Except Err BOInstance :=
  match findAttr meta boAttrId with
  | Option.none => .error .attributeError
  | Option.some attr =>
    if attr.readonly then .error .auth
    else if pyIsNone value && !attr.nullable then .error .auth
    else
      let store := fun (v : PyVal) =>
        Except.ok { inst with updated := updInsert inst.updated (dataIndex meta attr) v }
      if isDocument attr then
        if pyIsNone value then store value
        else
          match value with
          | .str path =>
            match (files.find? (fun f => f.1 == path)).map (fun f => f.2) with
            | Option.some enc =>
              store (.dict [("data", .str enc), ("name", .str (basename path))])
            | Option.none => .error .ioError
          | _ => .error .typeError
      else if attr.reference then
        if pyIsNone value then
          store (.dict [("id", PyVal.none), ("name", .str "")])
        else
          match value with
          | .instObj vMeta vId vTitle =>
            match getBusinessObject catalog attr.referencingBoMetaId true with
            | Option.none => .error .attributeError
            | Option.some refId =>
              if refId != vMeta then .error .valueEx
              else store (.dict [("id", vId), ("name", vTitle)])
          | _ => .error .valueEx
      else if attr.type == "String" then
        match value with
        | .str _ => store value
        | .none => store value
        | v => store (.str (pyStr v))
      else store value

/-- The round trip of claim C7: `set_attribute` immediately followed by
`get_attribute` on the same attribute, before any `save()`. -/
def setThenGet (catalog files : List (String × String)) (meta : BOMeta)
    (fetched : PyVal) (inst : BOInstance) (boAttrId : String) (value : PyVal) :
    Except Err AttrValue :=
  match setAttribute catalog files meta inst boAttrId value with
  | .error e => .error e
  | .ok inst2 =>
    match getAttribute catalog meta fetched inst2 boAttrId with
    | .error e => .error e
    | .ok (r, _) => .ok r

theorem updLookup_cons (a : String × PyVal) (l : List (String × PyVal))
    (k : String) :
    updLookup (a :: l) k =
      if a.1 == k then Option.some a.2 else updLookup l k := by
  by_cases h : (a.1 == k) = true
  · simp [updLookup, List.find?_cons, h]
  · simp [updLookup, List.find?_cons, h]

theorem updLookup_updInsert (m : List (String × PyVal)) (k : String) (v : PyVal) :
    updLookup (updInsert m k v) k = Option.some v := by
  rw [updInsert]
  by_cases hmem : (m.any fun p => p.1 == k) = true
  · rw [if_pos hmem]
    induction m with
    | nil => simp at hmem
    | cons p t ih =>
      rw [List.map_cons]
      by_cases hp : (p.1 == k) = true
      · rw [if_pos hp, updLookup_cons]
        simp
      · rw [if_neg hp, updLookup_cons, if_neg hp]
        apply ih
        simp only [List.any_cons, hp, Bool.false_or] at hmem
        exact hmem
  · rw [if_neg hmem]
    induction m with
    | nil =>
      rw [List.nil_append, updLookup_cons]
      simp
    | cons p t ih =>
      rw [List.cons_append, updLookup_cons]
      simp only [List.any_cons, Bool.or_eq_true] at hmem
      rw [if_neg (fun h => hmem (Or.inl h))]
      exact ih (fun h => hmem (Or.inr h))

/-- Well-formedness of a pending value for an attribute, exactly the shapes
`set_attribute` produces: documents store `None` or a dict with a "name"
entry; references store `None`-free dicts with an "id" entry whose non-null
id implies the referenced entity exists in the catalog (`set_attribute`
already resolved it); everything else is stored as given. -/
def wfPending (catalog : List (String × String)) (attr : AttrMeta) (v : PyVal) :
    Bool :=
  if isDocument attr && !pyIsNone v then
    match v with
    | .dict kvs => kvs.any (fun p => p.1 == "name")
    | _ => false
  else if attr.reference && !pyIsNone v then
    match v with
    | .dict kvs =>
      match (kvs.find? (fun p => p.1 == "id")).map (fun p => p.2) with
      | Option.some idv => pyIsNone idv || boMetaIdExists catalog attr.referencingBoMetaId
      | Option.none => false
    | _ => false
  else true

theorem postProcess_ok_of_wf (catalog : List (String × String)) (attr : AttrMeta)
    (v : PyVal) (inst : BOInstance) (h : wfPending catalog attr v = true) :
    ∃ r, postProcess catalog attr v inst = .ok (r, inst) := by
  unfold wfPending at h
  unfold postProcess
  by_cases h1 : (isDocument attr && !pyIsNone v) = true
  · rw [if_pos h1] at h ⊢
    cases v with
    | dict kvs =>
      obtain ⟨p, hmem, hp⟩ := List.any_eq_true.mp h
      cases hf : kvs.find? (fun p => p.1 == "name") with
      | none =>
        exact absurd hp (by simpa using List.find?_eq_none.mp hf p hmem)
      | some q =>
        exact ⟨.val q.2, by simp [pyDictGet, hf]⟩
    | none => simp at h
    | bool b => simp at h
    | int n => simp at h
    | str s => simp at h
    | list xs => simp at h
    | instObj a b c => simp at h
  · rw [if_neg h1] at h ⊢
    by_cases h2 : (attr.reference && !pyIsNone v) = true
    · rw [if_pos h2] at h
      have href : attr.reference = true := by
        simp only [Bool.and_eq_true] at h2; exact h2.1
      have hvn : (!pyIsNone v) = true := by
        simp only [Bool.and_eq_true] at h2; exact h2.2
      rw [href, if_pos rfl, if_pos hvn]
      cases v with
      | dict kvs =>
        cases hf : kvs.find? (fun p => p.1 == "id") with
        | none => simp [hf] at h
        | some q =>
          simp only [hf, Option.map] at h
          by_cases hq : pyIsNone q.2 = true
          · refine ⟨.val PyVal.none, ?_⟩
            simp [pyDictGet, hf, hq]
          · have hq2 : pyIsNone q.2 = false := by simpa using hq
            simp only [hq2, Bool.false_or] at h
            refine ⟨.ref attr.referencingBoMetaId q.2, ?_⟩
            simp [pyDictGet, hf, hq2, getBusinessObject, h]
      | none => simp [pyIsNone] at hvn
      | bool b => simp at h
      | int n => simp at h
      | str s => simp at h
      | list xs => simp at h
      | instObj a b c => simp at h
    · by_cases href : attr.reference = true
      · have hvn : pyIsNone v = true := by
          cases hpn : pyIsNone v
          · exact absurd (by simp [href, hpn]) h2
          · rfl
        rw [href, if_pos rfl, hvn]
        exact ⟨.val PyVal.none, by simp⟩
      · rw [if_neg (by simpa using href)]
        exact ⟨.val v, rfl⟩

/-- C10 (confirmed): on a deleted instance, `get_attribute` serves a
pending write without touching the loaded-data snapshot — the result is
computed by the pure post-processing of the pending value, the instance is
unchanged (no fetch), and for every pending value `set_attribute` can have
produced the call succeeds; the `Cannot access data of a deleted instance`
error is raised exactly when the pending map misses and the loaded-data
snapshot would have to be consulted. -/
theorem C10_deleted_instance_pending_reads :
    ∀ (catalog : List (String × String)) (meta : BOMeta) (fetched : PyVal)
      (inst : BOInstance) (boAttrId : String) (attr : AttrMeta),
      inst.deleted = true →
      findAttr meta boAttrId = Option.some attr →
      ((∀ v, updLookup inst.updated (dataIndex meta attr) = Option.some v →
          getAttribute catalog meta fetched inst boAttrId =
            postProcess catalog attr v inst ∧
          (wfPending catalog attr v = true →
            ∃ r, getAttribute catalog meta fetched inst boAttrId =
              .ok (r, inst))) ∧
       (updLookup inst.updated (dataIndex meta attr) = Option.none →
          optTruthy inst.boId = true →
          getAttribute catalog meta fetched inst boAttrId =
            .error (.invalidState "Cannot access data of a deleted instance."))) := by
  intro catalog meta fetched inst boAttrId attr hdel hfind
  constructor
  · intro v hv
    have heq : getAttribute catalog meta fetched inst boAttrId =
        postProcess catalog attr v inst := by
      unfold getAttribute
      rw [hfind]
      simp only [hv]
    refine ⟨heq, fun hwf => ?_⟩
    obtain ⟨r, hr⟩ := postProcess_ok_of_wf catalog attr v inst hwf
    exact ⟨r, by rw [heq, hr]⟩
  · intro hmiss hid
    unfold getAttribute
    rw [hfind]
    simp only [hmiss]
    unfold dataProp
    rw [hid]
    simp [hdel]

/-- A string attribute "Note" of the sample entity "o". -/
def attrNote : AttrMeta :=
  AttrMeta.mk "o_note" "Note" "String" false true false false ""

/-- A second string attribute "Extra" of the sample entity "o". -/
def attrExtra : AttrMeta :=
  AttrMeta.mk "o_extra" "Extra" "String" false true false false ""

/-- Metadata of the sample entity "o" with the two string attributes. -/
def metaO : BOMeta := BOMeta.mk "o" [attrNote, attrExtra]

/-- A deleted, loaded-once instance of "o" with one pending write under the
data index "note". -/
def instDeleted : BOInstance :=
  BOInstance.mk (Option.some (PyVal.int 5)) Option.none true
    [("note", PyVal.str "x")]

/-- Witness for `C10_deleted_instance_pending_reads`: the deleted instance
serves the pending value of "Note" via pure post-processing, and raises
the deleted-instance error on "Extra", whose data index misses the pending
map. -/
theorem C10_witness :
    getAttribute [] metaO PyVal.none instDeleted "o_note" =
      postProcess [] attrNote (PyVal.str "x") instDeleted ∧
    getAttribute [] metaO PyVal.none instDeleted "o_extra" =
      .error (.invalidState "Cannot access data of a deleted instance.") :=
  ⟨((C10_deleted_instance_pending_reads [] metaO PyVal.none instDeleted
      "o_note" attrNote rfl rfl).1 (PyVal.str "x") rfl).1,
   (C10_deleted_instance_pending_reads [] metaO PyVal.none instDeleted
      "o_extra" attrExtra rfl rfl).2 rfl rfl⟩

/-- A live (non-deleted) instance of "o" with loaded data and no pending
writes, for the round-trip claim. -/
def instLive : BOInstance :=
  BOInstance.mk (Option.some (PyVal.int 5))
    (Option.some (PyVal.dict [("attributes", PyVal.dict [])])) false []

/-- C7 (counterexample): setting the string-typed attribute "Note" to the
integer 42 and reading it back immediately returns the *string* "42"
(`set_attribute` stringifies non-string values for string-typed
attributes), not the value 42 that was set — the round trip is not the
identity for every accepted value. -/
theorem C7_counterexample :
    setThenGet [] [] metaO PyVal.none instLive "o_note" (PyVal.int 42) =
      .ok (.val (PyVal.str "42")) ∧
    PyVal.str "42" ≠ PyVal.int 42 :=
  ⟨rfl, fun h => by cases h⟩

/-- C7 (amended): the immediate `set_attribute`/`get_attribute` round trip
returns the value unchanged for writable attributes that are neither
document- nor reference-typed, provided the value is admissible (null only
if nullable) and is not silently stringified (for a string-typed attribute
the value must be a string or null).  Document attributes round-trip to
the file's base name, reference attributes to a fresh instance of the
referenced entity, and string-typed attributes given non-string values to
the stringification, so the unrestricted claim fails. -/
theorem C7_amended :
    ∀ (catalog files : List (String × String)) (meta : BOMeta)
      (fetched : PyVal) (inst : BOInstance) (boAttrId : String)
      (attr : AttrMeta) (v : PyVal),
      findAttr meta boAttrId = Option.some attr →
      attr.readonly = false →
      (v = PyVal.none → attr.nullable = true) →
      isDocument attr = false →
      attr.reference = false →
      (attr.type = "String" → (∃ s, v = PyVal.str s) ∨ v = PyVal.none) →
      setThenGet catalog files meta fetched inst boAttrId v = .ok (.val v) := by
  intro catalog files meta fetched inst boAttrId attr v hfind hro hnull hdoc href hstr
  have hguard : (pyIsNone v && !attr.nullable) = false := by
    cases hv : pyIsNone v
    · simp
    · have : v = PyVal.none := by
        cases v <;> simp [pyIsNone] at hv ⊢
      rw [hnull this]
      simp
  have hset : setAttribute catalog files meta inst boAttrId v =
      Except.ok { inst with
        updated := updInsert inst.updated (dataIndex meta attr) v } := by
    unfold setAttribute
    rw [hfind]
    simp only [hro, Bool.false_eq_true, if_false, hguard, hdoc, href]
    by_cases ht : attr.type = "String"
    · rcases hstr ht with ⟨s, rfl⟩ | rfl <;> simp [ht]
    · have ht2 : (attr.type == "String") = false := by simp [ht]
      simp [ht2]
  have hget : getAttribute catalog meta fetched
      { inst with updated := updInsert inst.updated (dataIndex meta attr) v }
      boAttrId = .ok (.val v,
        { inst with updated := updInsert inst.updated (dataIndex meta attr) v }) := by
    unfold getAttribute
    rw [hfind]
    simp only [updLookup_updInsert]
    unfold postProcess
    simp [hdoc, href]
  unfold setThenGet
  simp only [hset, hget]

/-- Witness for `C7_amended`: round trip of the integer 3 through the
non-string attribute "Count" of a sample entity. -/
theorem C7_amended_witness :
    setThenGet [] [] (BOMeta.mk "o" [AttrMeta.mk "o_count" "Count" "Integer" false true false false ""])
      PyVal.none instLive "o_count" (PyVal.int 3) = .ok (.val (PyVal.int 3)) :=
  C7_amended [] [] (BOMeta.mk "o" [AttrMeta.mk "o_count" "Count" "Integer" false true false false ""])
    PyVal.none instLive "o_count"
    (AttrMeta.mk "o_count" "Count" "Integer" false true false false "")
    (PyVal.int 3) rfl rfl (fun h => by cases h) rfl rfl
    (fun h => by simp at h)

/-! ## The request pipeline (`NuclosAPI.request`, `login`, `logout`,
`reconnect`, nuclos.py lines 147-211 and 321-388)

The HTTP transport is a scripted server: a function from the call counter
to the response of that round trip.  Each transport call is recorded in a
trace with exactly the request properties the code sets: target path,
query parameters (they only shape the URL), body, method, the JSON accept
header, the session cookie (attached only when the session id is truthy),
and the download target.  A response carries the raw body and the result
`json.loads` would produce on it (`none` = `ValueError`). -/

def VERSION_ROUTE : String := "version"

def LOGIN_ROUTE : String := ""

def LOGOUT_ROUTE : String := ""

/-- One recorded transport call. -/
structure TCall where
  path : String
  parameters : Option (List (String × String))
  data : Option PyVal
  method : Option String
  jsonAnswer : Bool
  session : Option PyVal
  filename : Option String

/-- One scripted HTTP response. -/
inductive HResp where
  | ok (raw : String) (parsed : Option PyVal)
  | err (code : Nat) (reason : String)

/-- The remote server: response to the n-th transport call. -/
abbrev Server := Nat → HResp

/-- Client-side state of one `NuclosAPI` object: the session id, the
memoized `version` property (one `Cached` entry, keyed by `self`), the
transport call counter and the recorded trace. -/
structure ClientSt where
  session : Option PyVal
  versionCache : Option PyVal
  calls : Nat
  trace : List TCall

/-- Build the `urllib` request object of `request` (lines 338-354): the
session cookie is attached only when `self.session_id` is truthy. -/
def mkCall (st : ClientSt) (path : String)
    (parameters : Option (List (String × String))) (data : Option PyVal)
    (method : Option String) (jsonAnswer : Bool) (filename : Option String) :
    TCall :=
  { path := path, parameters := parameters, data := data, method := method,
    jsonAnswer := jsonAnswer,
    session := if optTruthy st.session then st.session else Option.none,
    filename := filename }

/-- Issue one transport round trip: consume the scripted response and
record the call. -/
def transport (server : Server) (st : ClientSt) (c : TCall) :
    HResp × ClientSt :=
  (server st.calls,
   { st with calls := st.calls + 1, trace := st.trace ++ [c] })

/-- The success path of `request` (lines 361-377): a download returns
`None`, a non-JSON call returns the raw body, a JSON call returns the
parse result, with a parse failure logged and returned as `None`. -/
def handleOk (raw : String) (parsed : Option PyVal) (jsonAnswer : Bool)
    (filename : Option String) : PyVal :=
  if filename.isSome then PyVal.none
  else if !jsonAnswer then PyVal.str raw
  else parsed.getD PyVal.none

/-- `NuclosAPI.request` specialized to `auto_login=False` (the entry
auto-login is skipped and, in the `except` handler, a 401 falls through to
the generic `NuclosHTTPException` branch; 403 still raises
`NuclosAuthenticationException`). -/
def request0 (server : Server) (path : String)
    (parameters : Option (List (String × String))) (data : Option PyVal)
    (method : Option String) (jsonAnswer : Bool) (filename : Option String)
    (st : ClientSt) : ClientSt × Except Err PyVal :=
  let c := mkCall st path parameters data method jsonAnswer filename
  match transport server st c with
  | (.ok raw parsed, st2) => (st2, .ok (handleOk raw parsed jsonAnswer filename))
  | (.err code reason, st2) =>
    if code = 403 then (st2, .error .auth)
    else (st2, .error (.http code reason))

/-- The `version` property (lines 147-150): `@Cached`, fetched once via
`request(VERSION_ROUTE, auto_login=False, json_answer=False)`. -/
def versionProp (server : Server) (st : ClientSt) :
    ClientSt × Except Err PyVal :=
  match st.versionCache with
  | Option.some v => (st, .ok v)
  | Option.none =>
    match request0 server VERSION_ROUTE Option.none Option.none Option.none
        false Option.none st with
    | (st2, .ok v) => ({ st2 with versionCache := Option.some v }, .ok v)
    | (st2, .error e) => (st2, .error e)

/-- The credentials body of `login` (settings are external configuration,
fixed placeholder values here). -/
def loginData : PyVal :=
  PyVal.dict [("username", .str "user"), ("password", .str "pass"),
    ("locale", .str "en_US")]

/-- `NuclosAPI.login` (lines 167-188): version gate against (4, 7), then a
POST of the credentials with `auto_login=False`; a falsy answer raises
`NuclosAuthenticationException`, otherwise the session id is stored. -/
def login (server : Server) (st : ClientSt) : ClientSt × Except Err Unit :=
  match versionProp server st with
  | (st1, .error e) => (st1, .error e)
  | (st1, .ok v) =>
    match requireVersionPy v [4, 7] with
    | .error e => (st1, .error e)
    | .ok false => (st1, .error .version)
    | .ok true =>
      match request0 server LOGIN_ROUTE Option.none (Option.some loginData)
          Option.none true Option.none st1 with
      | (st2, .error e) => (st2, .error e)
      | (st2, .ok answer) =>
        if pyTruthy answer then
          match pyDictGet answer "sessionId" with
          | .ok sid => ({ st2 with session := Option.some sid }, .ok ())
          | .error e => (st2, .error e)
        else (st2, .error .auth)

/-- `NuclosAPI.request` (lines 321-388).  With `auto_login` set: log in
first when no session is active; on HTTP 401 clear the session, log in
again and re-issue the call once with `auto_login=False` — the retry
passes only `path`, `data`, `method` and `json_answer`, so the
`parameters` and `filename` arguments fall back to their defaults; on 403
raise `NuclosAuthenticationException`; any other error status raises
`NuclosHTTPException`. -/
def request (server : Server) (path : String)
    (parameters : Option (List (String × String))) (data : Option PyVal)
    (method : Option String) (autoLogin jsonAnswer : Bool)
    (filename : Option String) (st : ClientSt) : ClientSt × Except Err PyVal :=
  if autoLogin then
    match (if !optTruthy st.session then login server st else (st, .ok ())) with
    | (st0, .error e) => (st0, .error e)
    | (st0, .ok _) =>
      let c := mkCall st0 path parameters data method jsonAnswer filename
      match transport server st0 c with
      | (.ok raw parsed, st2) =>
        (st2, .ok (handleOk raw parsed jsonAnswer filename))
      | (.err code reason, st2) =>
        if code = 401 then
          match login server { st2 with session := Option.none } with
          | (st3, .error e) => (st3, .error e)
          | (st3, .ok _) =>
            request0 server path Option.none data method jsonAnswer
              Option.none st3
        else if code = 403 then (st2, .error .auth)
        else (st2, .error (.http code reason))
  else request0 server path parameters data method jsonAnswer filename st

/-- `NuclosAPI.logout` (lines 190-204): no-op success without an active
session; otherwise a DELETE with default `auto_login=True` and
`json_answer=False`; a non-`None` answer clears the session and yields
`True`. -/
def logout (server : Server) (st : ClientSt) : ClientSt × Except Err Bool :=
  if !optTruthy st.session then (st, .ok true)
  else
    match request server LOGOUT_ROUTE Option.none Option.none
        (Option.some "DELETE") true false Option.none st with
    | (st2, .error e) => (st2, .error e)
    | (st2, .ok answer) =>
      if !pyIsNone answer then
        ({ st2 with session := Option.none }, .ok true)
      else (st2, .ok false)

/-- The global registry `Cached.cached`: a class attribute shared by the
whole process, one cache dictionary per decorated function.  Because the
decorated functions are methods, the `self` argument is part of every key;
it is modelled as the numeric id of the owning client. -/
abbrev Registry := List (List ((Nat × List PyVal) × PyVal))

/-- `Cached.clear` (lines 94-97): every cache ever created forgets all
entries. -/
def clearAllCaches (reg : Registry) : Registry := reg.map (fun _ => [])

/-- `NuclosAPI.reconnect` (lines 206-211): `logout()` then
`Cached.clear()`; the memoized `version` property is one of the cleared
caches.  An exception escaping `logout` propagates before anything is
cleared. -/
def reconnect (server : Server) (st : ClientSt) (reg : Registry) :
    (ClientSt × Registry) × Except Err Unit :=
  match logout server st with
  | (st2, .error e) => ((st2, reg), .error e)
  | (st2, .ok _) =>
    (({ st2 with versionCache := Option.none }, clearAllCaches reg), .ok ())

/-- Two `NuclosAPI` clients (ids 0 and 1) of one process, sharing the
process-global cache registry. -/
structure World where
  a : ClientSt
  b : ClientSt
  registry : Registry

/-- `reconnect()` invoked on one of the two clients of a process. -/
def reconnectWorld (server : Server) (useA : Bool) (w : World) :
    World × Except Err Unit :=
  match reconnect server (if useA then w.a else w.b) w.registry with
  | ((st2, reg2), r) =>
    (if useA then { w with a := st2, registry := reg2 }
     else { w with b := st2, registry := reg2 }, r)

theorem request0_ok_str (server : Server) (path : String)
    (parameters : Option (List (String × String))) (data : Option PyVal)
    (method : Option String) (st : ClientSt) (v : PyVal)
    (h : (request0 server path parameters data method false Option.none st).2 =
      .ok v) :
    ∃ s, v = PyVal.str s := by
  unfold request0 transport at h
  simp only [mkCall] at h
  split at h
  · next raw parsed st2 heq =>
    simp only [handleOk, Option.isSome_none, Bool.false_eq_true, if_false,
      Bool.not_false, if_true, Except.ok.injEq] at h
    exact ⟨raw, h.symm⟩
  · next code reason st2 heq =>
    split at h <;> simp at h

theorem request_jsonFalse_ok (server : Server) (path : String)
    (parameters : Option (List (String × String))) (data : Option PyVal)
    (method : Option String) (st : ClientSt) (v : PyVal)
    (h : (request server path parameters data method true false Option.none st).2 =
      .ok v) :
    ∃ s, v = PyVal.str s := by
  unfold request at h
  rw [if_pos rfl] at h
  split at h
  · next st0 e heq => simp at h
  · next st0 u heq =>
    unfold transport at h
    simp only [mkCall] at h
    split at h
    · next raw parsed st2 heq2 =>
      simp only [handleOk, Option.isSome_none, Bool.false_eq_true, if_false,
        Bool.not_false, if_true, Except.ok.injEq] at h
      exact ⟨raw, h.symm⟩
    · next code reason st2 heq2 =>
      split at h
      · split at h
        · next st3 e heq3 => simp at h
        · next st3 u2 heq3 =>
          exact request0_ok_str server path Option.none data method st3 v h
      · split at h <;> simp at h

theorem logout_ok_notTruthy (server : Server) (st : ClientSt) (b : Bool)
    (h : (logout server st).2 = .ok b) :
    optTruthy (logout server st).1.session = false := by
  unfold logout at h ⊢
  by_cases hs : optTruthy st.session = true
  · rw [if_neg (by simp [hs])] at h ⊢
    cases hreq : request server LOGOUT_ROUTE Option.none Option.none
        (Option.some "DELETE") true false Option.none st with
    | mk st2 r =>
      rw [hreq] at h
      cases r with
      | error e => simp at h
      | ok answer =>
        obtain ⟨s, rfl⟩ := request_jsonFalse_ok server LOGOUT_ROUTE Option.none
          Option.none (Option.some "DELETE") st answer (by rw [hreq])
        simp [pyIsNone, optTruthy]
  · have hs2 : optTruthy st.session = false := by
      cases hx : optTruthy st.session
      · rfl
      · exact absurd hx hs
    rw [if_pos (by rw [hs2]; rfl)] at h ⊢
    exact hs2

theorem reconnect_ok_state (server : Server) (st : ClientSt) (reg : Registry)
    (h : (reconnect server st reg).2 = .ok ()) :
    optTruthy (reconnect server st reg).1.1.session = false ∧
    (reconnect server st reg).1.1.versionCache = Option.none ∧
    (reconnect server st reg).1.2 = clearAllCaches reg ∧
    ∀ c ∈ clearAllCaches reg, c = [] := by
  unfold reconnect at h ⊢
  cases hl : logout server st with
  | mk st2 r =>
    rw [hl] at h
    cases r with
    | error e => simp at h
    | ok b =>
      refine ⟨?_, rfl, rfl, ?_⟩
      · have h2 := logout_ok_notTruthy server st b (by rw [hl])
        rw [hl] at h2
        simpa using h2
      · intro c hc
        simp only [clearAllCaches, List.mem_map] at hc
        obtain ⟨d, _, hd⟩ := hc
        exact hd.symm

/-- A server that answers every call with HTTP 500. -/
def server500 : Server := fun _ => HResp.err 500 "Internal Server Error"

/-- A server that answers every call with an empty 200 body. -/
def serverIdle : Server := fun _ => HResp.ok "" (Option.some PyVal.none)

/-- A registry with one cache holding one entry owned by client 1. -/
def reg0 : Registry := [[((1, [PyVal.str "k"]), PyVal.int 42)]]

/-- A client with an active session and a memoized version answer. -/
def stTok : ClientSt :=
  { session := Option.some (PyVal.str "tok"),
    versionCache := Option.some (PyVal.str "4.7.2 final"), calls := 0,
    trace := [] }

/-- A client with no active session. -/
def stNoSession : ClientSt :=
  { session := Option.none,
    versionCache := Option.some (PyVal.str "4.7.2 final"), calls := 0,
    trace := [] }

/-- C4 (counterexample): when the logout transport call fails with HTTP
500, `reconnect()` propagates `NuclosHTTPException` before reaching
`Cached.clear()`: the session token is still set and the cache registry
still holds its entry — the claim's "regardless of the transport outcome"
is false. -/
theorem C4_counterexample :
    (reconnect server500 stTok reg0).2 =
      .error (.http 500 "Internal Server Error") ∧
    (reconnect server500 stTok reg0).1.1.session =
      Option.some (PyVal.str "tok") ∧
    (reconnect server500 stTok reg0).1.2 = reg0 ∧
    reg0 ≠ clearAllCaches reg0 :=
  ⟨rfl, rfl, rfl, by simp [reg0, clearAllCaches]⟩

/-- C4 (amended): after every `reconnect()` call that returns without
raising (the embedded logout transport call does not fail), no truthy
session token remains, the memoized version answer is gone, and the global
registry holds only empty caches; when the logout call raises, `reconnect`
propagates the exception and neither the token nor the caches are
touched. -/
theorem C4_amended :
    ∀ (server : Server) (st : ClientSt) (reg : Registry),
      (reconnect server st reg).2 = .ok () →
      optTruthy (reconnect server st reg).1.1.session = false ∧
      (reconnect server st reg).1.1.versionCache = Option.none ∧
      (reconnect server st reg).1.2 = clearAllCaches reg ∧
      ∀ c ∈ clearAllCaches reg, c = [] :=
  fun server st reg h => reconnect_ok_state server st reg h

/-- Witness for `C4_amended`: a reconnect against a healthy server clears
the session and replaces the registry by empty caches. -/
theorem C4_amended_witness :
    optTruthy (reconnect serverIdle stTok reg0).1.1.session = false ∧
    (reconnect serverIdle stTok reg0).1.2 = clearAllCaches reg0 :=
  ⟨(C4_amended serverIdle stTok reg0 rfl).1,
   (C4_amended serverIdle stTok reg0 rfl).2.2.1⟩

/-- Two clients: A (id 0) without a session, B (id 1) owning the cached
entry of `reg0`. -/
def w0 : World := { a := stNoSession, b := stTok, registry := reg0 }

/-- C9 (counterexample): `Cached.cached` is a class attribute, one registry
per process, not per client.  Calling `reconnect()` on client A succeeds
and empties the cache that held the entry keyed by client B — B's memoized
result is unreachable afterwards, refuting the claimed per-client
isolation. -/
theorem C9_counterexample :
    (reconnectWorld serverIdle true w0).2 = .ok () ∧
    (reconnectWorld serverIdle true w0).1.b = w0.b ∧
    w0.registry = [[((1, [PyVal.str "k"]), PyVal.int 42)]] ∧
    (reconnectWorld serverIdle true w0).1.registry = [[]] :=
  ⟨rfl, rfl, rfl, rfl⟩

/-- C9 (amended): the memoization registry is global to the process: a
`reconnect()` on either client that completes without raising leaves the
shared registry holding only empty caches, so every client's memoized
results are invalidated together. -/
theorem C9_amended :
    ∀ (server : Server) (useA : Bool) (w : World),
      (reconnectWorld server useA w).2 = .ok () →
      (reconnectWorld server useA w).1.registry = clearAllCaches w.registry ∧
      ∀ c ∈ clearAllCaches w.registry, c = [] := by
  intro server useA w h
  unfold reconnectWorld at h ⊢
  cases hr : reconnect server (if useA then w.a else w.b) w.registry with
  | mk p r =>
    obtain ⟨st2, reg2⟩ := p
    rw [hr] at h
    cases r with
    | error e => simp at h
    | ok u =>
      have hst := reconnect_ok_state server (if useA then w.a else w.b)
        w.registry (by rw [hr])
      rw [hr] at hst
      refine ⟨?_, hst.2.2.2⟩
      cases useA <;> simpa using hst.2.2.1

/-- Witness for `C9_amended`. -/
theorem C9_amended_witness :
    (reconnectWorld serverIdle true w0).1.registry =
      clearAllCaches w0.registry :=
  (C9_amended serverIdle true w0 rfl).1

/-- A server whose first answer is 401, whose second answer is a
successful login, and whose answers from the third on are 401 again. -/
def server401 : Server := fun n =>
  match n with
  | 0 => HResp.err 401 "Unauthorized"
  | 1 => HResp.ok "login-ok"
      (Option.some (PyVal.dict [("sessionId", PyVal.str "s2")]))
  | _ => HResp.err 401 "Unauthorized"

/-- The run of claim C1's scenario: a request with query parameters whose
first attempt gets 401 and whose retry gets 401 again. -/
def runC1 : ClientSt × Except Err PyVal :=
  request server401 "bos/example" (Option.some [("search", "q")]) Option.none
    Option.none true true Option.none stTok

/-- C1 (counterexample): in the 401-retry scenario the failure of the
retried call surfaces as `NuclosHTTPException` with code 401, not as
`NuclosAuthenticationException`; and the retried call (the third and last
transport call) is not identical to the original: its query parameters are
gone (the retry passes only path, body, method and JSON flag, so
`parameters` and `filename` fall back to `None`). -/
theorem C1_counterexample :
    runC1.2 = .error (.http 401 "Unauthorized") ∧
    runC1.2 ≠ .error Err.auth ∧
    runC1.1.trace.length = 3 ∧
    (runC1.1.trace.getLast?).map TCall.parameters =
      Option.some Option.none ∧
    (runC1.1.trace.head?).map TCall.parameters =
      Option.some (Option.some [("search", "q")]) :=
  ⟨rfl,
   fun hcontra => Err.noConfusion (Except.error.inj hcontra),
   rfl, rfl, rfl⟩

/-- C1 (amended): on a 401 with `autoLogin` and an active session, the
client clears the session, performs exactly one re-login and re-issues the
call exactly once with `autoLogin=False`; the retry preserves path, body,
method and JSON flag, but the query parameters and the file target are
dropped (the retry call carries none); when the retry receives 401 again
the failure surfaces as `NuclosHTTPException` carrying code 401 — not
`NuclosAuthenticationException`, and without looping (exactly three
transport calls happen). -/
theorem C1_amended :
    ∀ (server : Server) (path : String)
      (parameters : Option (List (String × String))) (data : Option PyVal)
      (method : Option String) (jsonAnswer : Bool) (filename : Option String)
      (st : ClientSt) (s : PyVal) (vs : String)
      (reason1 reason2 raw : String) (sid : PyVal),
      st.session = Option.some s → pyTruthy s = true →
      st.versionCache = Option.some (PyVal.str vs) →
      requireVersion vs [4, 7] = .ok true →
      pyTruthy sid = true →
      server st.calls = .err 401 reason1 →
      server (st.calls + 1) =
        .ok raw (Option.some (PyVal.dict [("sessionId", sid)])) →
      server (st.calls + 2) = .err 401 reason2 →
      request server path parameters data method true jsonAnswer filename st =
        ({ session := Option.some sid,
           versionCache := Option.some (PyVal.str vs),
           calls := st.calls + 3,
           trace := st.trace ++
             [{ path := path, parameters := parameters, data := data,
                method := method, jsonAnswer := jsonAnswer,
                session := Option.some s, filename := filename },
              { path := LOGIN_ROUTE, parameters := Option.none,
                data := Option.some loginData, method := Option.none,
                jsonAnswer := true, session := Option.none,
                filename := Option.none },
              { path := path, parameters := Option.none, data := data,
                method := method, jsonAnswer := jsonAnswer,
                session := Option.some sid, filename := Option.none }] },
         .error (.http 401 reason2)) := by
  intro server path parameters data method jsonAnswer filename st s vs reason1
    reason2 raw sid hsess hts hvc hrv hsid h0 h1 h2
  have h1a : server (st.calls + 1) =
      .ok raw (Option.some (PyVal.dict [("sessionId", sid)])) := h1
  have h2a : server (st.calls + 1 + 1) = .err 401 reason2 := h2
  unfold request
  rw [if_pos rfl]
  rw [show (if !optTruthy st.session then login server st
      else (st, Except.ok ())) = (st, Except.ok ()) from by
    rw [hsess]; simp [optTruthy, hts]]
  have htd : pyTruthy (PyVal.dict [("sessionId", sid)]) = true := rfl
  simp [transport, mkCall, login, versionProp, requireVersionPy,
    request0, handleOk, pyDictGet, optTruthy, hsess, hts, hvc, hrv,
    hsid, htd, h0, h1a, h2a, List.find?_cons]

/-- Witness for `C1_amended` at the concrete scenario of
`C1_counterexample`. -/
theorem C1_amended_witness :
    request server401 "bos/example" (Option.some [("search", "q")])
      Option.none Option.none true true Option.none stTok =
      ({ session := Option.some (PyVal.str "s2"),
         versionCache := Option.some (PyVal.str "4.7.2 final"),
         calls := 3,
         trace :=
           [{ path := "bos/example",
              parameters := Option.some [("search", "q")],
              data := Option.none, method := Option.none, jsonAnswer := true,
              session := Option.some (PyVal.str "tok"),
              filename := Option.none },
            { path := LOGIN_ROUTE, parameters := Option.none,
              data := Option.some loginData, method := Option.none,
              jsonAnswer := true, session := Option.none,
              filename := Option.none },
            { path := "bos/example", parameters := Option.none,
              data := Option.none, method := Option.none, jsonAnswer := true,
              session := Option.some (PyVal.str "s2"),
              filename := Option.none }] },
       .error (.http 401 "Unauthorized")) := by
  have h := C1_amended server401 "bos/example"
    (Option.some [("search", "q")]) Option.none Option.none true Option.none
    stTok (PyVal.str "tok") "4.7.2 final" "Unauthorized" "Unauthorized"
    "login-ok" (PyVal.str "s2") rfl rfl rfl rfl rfl rfl rfl rfl
  simpa [stTok] using h

end Nuclos
